import Mathlib

/-!
Verification of the `vignette` thumbnail cache library (file `vignette/__init__.py`).

This development shallowly embeds the cache-management core of the library:
identity normalization (`_any2uri`, `hash_name`), size-class mapping
(`_any2size`), cache-path derivation (`build_thumbnail_path`), validity
checking (`is_thumbnail_valid` with the per-library `get_info` readers),
store/fail publication (`put_thumbnail`, `put_fail`, `is_thumbnail_failed`),
lookup (`try_get_thumbnail`), backend selection (`select_thumbnailer_types`)
and the generation dispatcher (`create_thumbnail`, `get_thumbnail`).

Modelling conventions:
* Python exceptions are modelled with `Except String`, the error string naming
  the Python exception class; a plain `return`/fall-through returning `None`
  is modelled as `Option` inside the success value.
* Python numbers appearing in the public API are modelled as `Int`; the
  dynamically typed `size`/`mtime` arguments (str-or-int) are modelled by the
  sum type `PyVal`.
* The filesystem is a record of partial maps: `files` maps a path to
  `none` (no file), `some none` (a file that image libraries cannot parse) or
  `some (some d)` (an image file whose embedded text key/value metadata is the
  ordered association list `d`); `mtimes`/`sizes` give `os.path.getmtime` /
  `os.path.getsize` (raising `OSError` when `none`).  Only atomically published
  final states are modelled: the temp-file-then-rename dance of
  `_mkstemp`/`os.rename` is represented by its net effect on `files`.
* `hashlib.md5` (an external stdlib collaborator) is embedded as a concrete
  MD5 implementation so that digests can be computed inside proofs.
-/

set_option autoImplicit false

namespace Vignette

abbrev Py (α : Type) : Type := Except String α

inductive PyVal where
  | int (i : Int)
  | str (s : String)
  deriving DecidableEq, Repr

def digitVal (c : Char) : Nat := c.toNat - 48

def digitsVal (acc : Nat) : List Char → Nat
  | [] => acc
  | c :: cs => digitsVal (acc * 10 + digitVal c) cs

def parseDigits (l : List Char) : Option Nat :=
  if l ≠ [] ∧ l.all Char.isDigit then some (digitsVal 0 l) else none

def splitSign (l : List Char) : Bool × List Char :=
  match l with
  | [] => (false, [])
  | c :: cs => if c = '-' then (true, cs) else if c = '+' then (false, cs) else (false, l)

def pyParseInt (s : String) : Option Int :=
  (parseDigits (splitSign s.toList).2).map
    fun n => if (splitSign s.toList).1 then -(n : Int) else (n : Int)

def floatShapeOk (cs : List Char) : Bool :=
  match cs.drop (cs.takeWhile Char.isDigit).length with
  | [] => cs.takeWhile Char.isDigit ≠ []
  | '.' :: frac => frac.all Char.isDigit && (cs.takeWhile Char.isDigit ≠ [] || frac ≠ [])
  | _ => false

def pyParseFloatInt (s : String) : Option Int :=
  if floatShapeOk (splitSign s.toList).2 then
    some (if (splitSign s.toList).1
      then -(digitsVal 0 ((splitSign s.toList).2.takeWhile Char.isDigit) : Int)
      else (digitsVal 0 ((splitSign s.toList).2.takeWhile Char.isDigit) : Int))
  else none

def natDigitsRevFuel : Nat → Nat → List Char
  | 0, _ => []
  | fuel + 1, n =>
    if n = 0 then [] else Char.ofNat (48 + n % 10) :: natDigitsRevFuel fuel (n / 10)

/-- Little-endian decimal digits of `n` (`n` itself is enough fuel). -/
def natDigitsRev (n : Nat) : List Char := natDigitsRevFuel n n

def pyStrNat (n : Nat) : String :=
  if n = 0 then "0" else String.mk (natDigitsRev n).reverse

def pyStrInt (i : Int) : String :=
  if i < 0 then "-" ++ pyStrNat i.natAbs else pyStrNat i.natAbs

def pyInt (v : PyVal) : Py Int :=
  match v with
  | .int i => .ok i
  | .str s => match pyParseInt s with
    | some i => .ok i
    | none => .error "ValueError"

def pyFloatInt (v : PyVal) : Py Int :=
  match v with
  | .int i => .ok i
  | .str s => match pyParseFloatInt s with
    | some i => .ok i
    | none => .error "ValueError"

theorem natDigitsRevFuel_zero (fuel : Nat) : natDigitsRevFuel fuel 0 = [] := by
  cases fuel <;> rfl

theorem natDigitsRevFuel_invariant :
    ∀ f1 : Nat, ∀ f2 n : Nat, n ≤ f1 → n ≤ f2 →
      natDigitsRevFuel f1 n = natDigitsRevFuel f2 n := by
  intro f1
  induction f1 with
  | zero =>
    intro f2 n h1 _
    have : n = 0 := Nat.le_zero.mp h1
    subst this
    rw [natDigitsRevFuel_zero, natDigitsRevFuel_zero]
  | succ f ih =>
    intro f2 n h1 h2
    by_cases hn : n = 0
    · subst hn
      rw [natDigitsRevFuel_zero, natDigitsRevFuel_zero]
    · cases f2 with
      | zero => omega
      | succ f2p =>
        show (if n = 0 then [] else _) = (if n = 0 then [] else _)
        rw [if_neg hn, if_neg hn]
        have hd : n / 10 < n := Nat.div_lt_self (Nat.pos_of_ne_zero hn) (by omega)
        rw [ih f2p (n / 10) (by omega) (by omega)]

/-- The defining equation of `natDigitsRev`. -/
theorem natDigitsRev_eq (n : Nat) :
    natDigitsRev n =
      if n = 0 then [] else Char.ofNat (48 + n % 10) :: natDigitsRev (n / 10) := by
  by_cases hn : n = 0
  · subst hn
    rw [if_pos rfl]
    exact natDigitsRevFuel_zero 0
  · rw [if_neg hn]
    unfold natDigitsRev
    cases n with
    | zero => exact absurd rfl hn
    | succ np =>
      show (if np + 1 = 0 then [] else _) = _
      rw [if_neg hn]
      have hd : (np + 1) / 10 < np + 1 := Nat.div_lt_self (by omega) (by omega)
      rw [natDigitsRevFuel_invariant np ((np + 1) / 10) ((np + 1) / 10)
        (by omega) (le_refl _)]

theorem digitsVal_append (acc : Nat) (l₁ l₂ : List Char) :
    digitsVal acc (l₁ ++ l₂) = digitsVal (digitsVal acc l₁) l₂ := by
  induction l₁ generalizing acc with
  | nil => rfl
  | cons c cs ih =>
    show digitsVal (acc * 10 + digitVal c) (cs ++ l₂)
        = digitsVal (digitsVal (acc * 10 + digitVal c) cs) l₂
    exact ih _

theorem digit_char_toNat {d : Nat} (h : d < 10) : (Char.ofNat (48 + d)).toNat = 48 + d := by
  interval_cases d <;> decide

theorem digit_char_isDigit {d : Nat} (h : d < 10) : (Char.ofNat (48 + d)).isDigit = true := by
  interval_cases d <;> decide

theorem natDigitsRev_spec (n : Nat) :
    digitsVal 0 (natDigitsRev n).reverse = n ∧ (natDigitsRev n).all Char.isDigit := by
  induction n using Nat.strong_induction_on with
  | _ n ih =>
    by_cases h : n = 0
    · subst h
      rw [natDigitsRev_eq, if_pos rfl]
      exact ⟨rfl, rfl⟩
    · have hlt : n / 10 < n := Nat.div_lt_self (Nat.pos_of_ne_zero h) (by omega)
      obtain ⟨ih1, ih2⟩ := ih (n / 10) hlt
      have hm : n % 10 < 10 := Nat.mod_lt _ (by omega)
      rw [natDigitsRev_eq, if_neg h]
      have hc1 : (Char.ofNat (48 + n % 10)).toNat = 48 + n % 10 := digit_char_toNat hm
      have hc2 : (Char.ofNat (48 + n % 10)).isDigit = true := digit_char_isDigit hm
      generalize hg : Char.ofNat (48 + n % 10) = c at hc1 hc2
      constructor
      · simp only [List.reverse_cons]
        rw [digitsVal_append, ih1]
        show n / 10 * 10 + digitVal c = n
        rw [digitVal, hc1]
        omega
      · simp only [List.all_cons, Bool.and_eq_true]
        exact ⟨hc2, ih2⟩

theorem natDigitsRev_ne_nil {n : Nat} (h : n ≠ 0) : (natDigitsRev n).reverse ≠ [] := by
  rw [natDigitsRev_eq, if_neg h]
  simp

theorem pyStrNat_toList (n : Nat) :
    (pyStrNat n).toList = if n = 0 then ['0'] else (natDigitsRev n).reverse := by
  by_cases h : n = 0 <;> simp [pyStrNat, h, String.toList]

theorem pyStrNat_all_digits (n : Nat) :
    (pyStrNat n).toList ≠ [] ∧ (pyStrNat n).toList.all Char.isDigit = true := by
  rw [pyStrNat_toList]
  by_cases h : n = 0
  · simp [h]
  · rw [if_neg h]
    refine ⟨natDigitsRev_ne_nil h, ?_⟩
    simpa using (natDigitsRev_spec n).2

theorem parseDigits_pyStrNat (n : Nat) : parseDigits (pyStrNat n).toList = some n := by
  by_cases h : n = 0
  · subst h; rfl
  · obtain ⟨h1, h2⟩ := pyStrNat_all_digits n
    rw [parseDigits, if_pos ⟨h1, h2⟩, pyStrNat_toList, if_neg h]
    exact congrArg some (natDigitsRev_spec n).1

theorem digitsVal_pyStrNat (n : Nat) : digitsVal 0 (pyStrNat n).toList = n := by
  obtain ⟨h1, h2⟩ := pyStrNat_all_digits n
  have := parseDigits_pyStrNat n
  rw [parseDigits, if_pos ⟨h1, h2⟩] at this
  injection this

theorem splitSign_digits_fst {l : List Char} (h1 : l ≠ []) (h2 : l.all Char.isDigit = true) :
    (splitSign l).1 = false := by
  cases l with
  | nil => exact absurd rfl h1
  | cons c cs =>
    simp only [List.all_cons, Bool.and_eq_true] at h2
    have hc1 : c ≠ '-' := by rintro rfl; simp [Char.isDigit] at h2
    have hc2 : c ≠ '+' := by rintro rfl; simp [Char.isDigit] at h2
    simp [splitSign, hc1, hc2]

theorem splitSign_digits_snd {l : List Char} (h1 : l ≠ []) (h2 : l.all Char.isDigit = true) :
    (splitSign l).2 = l := by
  cases l with
  | nil => exact absurd rfl h1
  | cons c cs =>
    simp only [List.all_cons, Bool.and_eq_true] at h2
    have hc1 : c ≠ '-' := by rintro rfl; simp [Char.isDigit] at h2
    have hc2 : c ≠ '+' := by rintro rfl; simp [Char.isDigit] at h2
    simp [splitSign, hc1, hc2]

theorem splitSign_minus_fst (cs : List Char) : (splitSign ('-' :: cs)).1 = true := by
  simp [splitSign]

theorem splitSign_minus_snd (cs : List Char) : (splitSign ('-' :: cs)).2 = cs := by
  simp [splitSign]

theorem takeWhile_all_of_all {l : List Char} (h : l.all Char.isDigit = true) :
    l.takeWhile Char.isDigit = l := by
  induction l with
  | nil => rfl
  | cons c cs ih =>
    simp only [List.all_cons, Bool.and_eq_true] at h
    simp [List.takeWhile, h.1, ih h.2]

theorem floatShapeOk_digits {l : List Char} (h1 : l ≠ []) (h2 : l.all Char.isDigit = true) :
    floatShapeOk l = true := by
  rw [floatShapeOk, takeWhile_all_of_all h2, List.drop_length]
  exact decide_eq_true h1

theorem pyParseFloatInt_pyStrNat (n : Nat) : pyParseFloatInt (pyStrNat n) = some (n : Int) := by
  obtain ⟨h1, h2⟩ := pyStrNat_all_digits n
  rw [pyParseFloatInt, splitSign_digits_fst h1 h2, splitSign_digits_snd h1 h2,
    floatShapeOk_digits h1 h2, if_pos rfl, takeWhile_all_of_all h2, digitsVal_pyStrNat]
  simp

theorem pyParseFloatInt_minus_pyStrNat (n : Nat) :
    pyParseFloatInt ("-" ++ pyStrNat n) = some (-(n : Int)) := by
  obtain ⟨h1, h2⟩ := pyStrNat_all_digits n
  have hlist : ("-" ++ pyStrNat n).toList = '-' :: (pyStrNat n).toList := by
    simp [String.toList]
  rw [pyParseFloatInt, hlist, splitSign_minus_fst, splitSign_minus_snd,
    floatShapeOk_digits h1 h2, if_pos rfl, takeWhile_all_of_all h2, digitsVal_pyStrNat]
  simp

theorem pyParseFloatInt_pyStrInt (i : Int) : pyParseFloatInt (pyStrInt i) = some i := by
  rw [pyStrInt]
  by_cases h : i < 0
  · rw [if_pos h, pyParseFloatInt_minus_pyStrNat]
    congr 1
    omega
  · rw [if_neg h, pyParseFloatInt_pyStrNat]
    congr 1
    omega

theorem pyParseInt_pyStrNat (n : Nat) : pyParseInt (pyStrNat n) = some (n : Int) := by
  obtain ⟨h1, h2⟩ := pyStrNat_all_digits n
  rw [pyParseInt, splitSign_digits_fst h1 h2, splitSign_digits_snd h1 h2,
    parseDigits_pyStrNat]
  simp

theorem pyParseInt_minus_pyStrNat (n : Nat) :
    pyParseInt ("-" ++ pyStrNat n) = some (-(n : Int)) := by
  obtain ⟨h1, h2⟩ := pyStrNat_all_digits n
  have hlist : ("-" ++ pyStrNat n).toList = '-' :: (pyStrNat n).toList := by
    simp [String.toList]
  rw [pyParseInt, hlist, splitSign_minus_fst, splitSign_minus_snd, parseDigits_pyStrNat]
  simp

theorem pyParseInt_pyStrInt (i : Int) : pyParseInt (pyStrInt i) = some i := by
  rw [pyStrInt]
  by_cases h : i < 0
  · rw [if_pos h, pyParseInt_minus_pyStrNat]
    congr 1
    omega
  · rw [if_neg h, pyParseInt_pyStrNat]
    congr 1
    omega


/-! ### UTF-8 encoding and MD5 (model of `hashlib.md5(...).hexdigest()`) -/

def utf8Char (c : Char) : List Nat :=
  let n := c.toNat
  if n < 128 then [n]
  else if n < 2048 then [192 ||| (n >>> 6), 128 ||| (n &&& 63)]
  else if n < 65536 then
    [224 ||| (n >>> 12), 128 ||| ((n >>> 6) &&& 63), 128 ||| (n &&& 63)]
  else
    [240 ||| (n >>> 18), 128 ||| ((n >>> 12) &&& 63),
     128 ||| ((n >>> 6) &&& 63), 128 ||| (n &&& 63)]

def utf8Encode (s : String) : List Nat :=
  (s.toList.map utf8Char).flatten

def md5K : List Nat :=
  [0xd76aa478, 0xe8c7b756, 0x242070db, 0xc1bdceee,
   0xf57c0faf, 0x4787c62a, 0xa8304613, 0xfd469501,
   0x698098d8, 0x8b44f7af, 0xffff5bb1, 0x895cd7be,
   0x6b901122, 0xfd987193, 0xa679438e, 0x49b40821,
   0xf61e2562, 0xc040b340, 0x265e5a51, 0xe9b6c7aa,
   0xd62f105d, 0x02441453, 0xd8a1e681, 0xe7d3fbc8,
   0x21e1cde6, 0xc33707d6, 0xf4d50d87, 0x455a14ed,
   0xa9e3e905, 0xfcefa3f8, 0x676f02d9, 0x8d2a4c8a,
   0xfffa3942, 0x8771f681, 0x6d9d6122, 0xfde5380c,
   0xa4beea44, 0x4bdecfa9, 0xf6bb4b60, 0xbebfbc70,
   0x289b7ec6, 0xeaa127fa, 0xd4ef3085, 0x04881d05,
   0xd9d4d039, 0xe6db99e5, 0x1fa27cf8, 0xc4ac5665,
   0xf4292244, 0x432aff97, 0xab9423a7, 0xfc93a039,
   0x655b59c3, 0x8f0ccc92, 0xffeff47d, 0x85845dd1,
   0x6fa87e4f, 0xfe2ce6e0, 0xa3014314, 0x4e0811a1,
   0xf7537e82, 0xbd3af235, 0x2ad7d2bb, 0xeb86d391]

def md5S : List Nat :=
  [7, 12, 17, 22, 7, 12, 17, 22, 7, 12, 17, 22, 7, 12, 17, 22,
   5, 9, 14, 20, 5, 9, 14, 20, 5, 9, 14, 20, 5, 9, 14, 20,
   4, 11, 16, 23, 4, 11, 16, 23, 4, 11, 16, 23, 4, 11, 16, 23,
   6, 10, 15, 21, 6, 10, 15, 21, 6, 10, 15, 21, 6, 10, 15, 21]

def w32 : Nat := 4294967296

def rotl32 (x n : Nat) : Nat := ((x <<< n) ||| (x >>> (32 - n))) % w32

def not32 (x : Nat) : Nat := x ^^^ 4294967295

/-- Pad a byte list per MD5: append 0x80, zeros to 56 mod 64, then the
64-bit little-endian bit length. -/
def md5Pad (msg : List Nat) : List Nat :=
  let len := msg.length
  let padLen := (55 - len) % 64
  let bitLen := (len * 8) % (2 ^ 64)
  msg ++ [128] ++ List.replicate padLen 0 ++
    (List.range 8).map (fun i => bitLen / (256 ^ i) % 256)

/-- Split a padded message into 16-word (little-endian) chunks. -/
def md5Words (chunk : List Nat) : List Nat :=
  (List.range 16).map fun i =>
    chunk.getD (4 * i) 0 + 256 * chunk.getD (4 * i + 1) 0 +
      65536 * chunk.getD (4 * i + 2) 0 + 16777216 * chunk.getD (4 * i + 3) 0

def md5Round (m : List Nat) (st : Nat × Nat × Nat × Nat) (i : Nat) :
    Nat × Nat × Nat × Nat :=
  let (a, b, c, d) := st
  let fg : Nat × Nat :=
    if i < 16 then ((b &&& c) ||| (not32 b &&& d), i)
    else if i < 32 then ((d &&& b) ||| (not32 d &&& c), (5 * i + 1) % 16)
    else if i < 48 then (b ^^^ c ^^^ d, (3 * i + 5) % 16)
    else (c ^^^ (b ||| not32 d), (7 * i) % 16)
  let f := (fg.1 + a + md5K.getD i 0 + m.getD fg.2 0) % w32
  (d, (b + rotl32 f (md5S.getD i 0)) % w32, b, c)

def md5Chunk (st : Nat × Nat × Nat × Nat) (chunk : List Nat) :
    Nat × Nat × Nat × Nat :=
  let m := md5Words chunk
  let (a, b, c, d) := (List.range 64).foldl (md5Round m) st
  ((st.1 + a) % w32, (st.2.1 + b) % w32, (st.2.2.1 + c) % w32, (st.2.2.2 + d) % w32)

def md5Bytes (msg : List Nat) : List Nat :=
  let padded := md5Pad msg
  let st := (List.range (padded.length / 64)).foldl
    (fun st i => md5Chunk st ((padded.drop (64 * i)).take 64))
    (0x67452301, 0xefcdab89, 0x98badcfe, 0x10325476)
  ((List.range 4).map fun i => st.1 / (256 ^ i) % 256) ++
    ((List.range 4).map fun i => st.2.1 / (256 ^ i) % 256) ++
    ((List.range 4).map fun i => st.2.2.1 / (256 ^ i) % 256) ++
    ((List.range 4).map fun i => st.2.2.2 / (256 ^ i) % 256)

def hexDigitChar (n : Nat) : Char :=
  if n < 10 then Char.ofNat (48 + n) else Char.ofNat (87 + n)

def byteHex (b : Nat) : List Char := [hexDigitChar (b / 16), hexDigitChar (b % 16)]

/-- `hashlib.md5(bytes).hexdigest()` of the UTF-8 encoding of a string. -/
def md5hex (s : String) : String :=
  String.mk ((md5Bytes (utf8Encode s)).map byteHex).flatten






/-! ### Strings and paths (`os.path`, `urllib`) -/

/-- `s.startswith(p)` on strings. -/
def strHasPfx (p s : String) : Bool := s.toList.take p.toList.length == p.toList

/-- `s.endswith(p)` on strings. -/
def strHasSfx (p s : String) : Bool :=
  s.toList.reverse.take p.toList.length == p.toList.reverse

/-- Characters matched by `[a-z0-9.+-]` under `re.I`. -/
def uriBodyChar (c : Char) : Bool :=
  c.isAlpha || c.isDigit || c = '.' || c = '+' || c = '-'

def colonAfterRun : List Char → Bool
  | [] => false
  | c :: cs => if c = ':' then true else if uriBodyChar c then colonAfterRun cs else false

/-- `URI_RE.match(s)` for `URI_RE = re.compile(r'[a-z][a-z0-9.+-]*:', re.I)`.
Since `:` is outside the repeated class, the greedy run needs no backtracking:
the match succeeds exactly when the run of class characters after an initial
letter is terminated by `:`. -/
def uriReMatch (s : String) : Bool :=
  match s.toList with
  | [] => false
  | c :: cs => c.isAlpha && colonAfterRun cs

def hexDigitCharUpper (n : Nat) : Char :=
  if n < 10 then Char.ofNat (48 + n) else Char.ofNat (55 + n)

/-- Bytes `urllib.parse.quote` leaves unescaped with `safe='/'`:
ASCII letters, digits, `_ . - ~` and `/`. -/
def quoteSafeByte (b : Nat) : Bool :=
  (65 ≤ b && b ≤ 90) || (97 ≤ b && b ≤ 122) || (48 ≤ b && b ≤ 57) ||
    b = 95 || b = 46 || b = 45 || b = 126 || b = 47

/-- `urllib.request.pathname2url(p)` on POSIX: `quote(p, safe='/')`
over the UTF-8 bytes of `p`. -/
def pathname2url (p : String) : String :=
  String.mk ((utf8Encode p).map fun b =>
    if quoteSafeByte b then [Char.ofNat b]
    else ['%', hexDigitCharUpper (b / 16), hexDigitCharUpper (b % 16)]).flatten

/-- Python `s.split('/')`. -/
def splitSlashAux : List Char → List Char → List String
  | [], acc => [String.mk acc.reverse]
  | c :: cs, acc =>
    if c = '/' then String.mk acc.reverse :: splitSlashAux cs []
    else splitSlashAux cs (c :: acc)

def splitSlash (s : String) : List String := splitSlashAux s.toList []

def stackTopIsDotDot : List String → Bool
  | c :: _ => c = ".."
  | [] => false

/-- One step of `posixpath.normpath`'s component loop (`stack` is the
reversed `new_comps`). -/
def normStep (initialSlashes : Bool) (stack : List String) (comp : String) : List String :=
  if comp = "" ∨ comp = "." then stack
  else if comp ≠ ".." ∨ (¬ initialSlashes ∧ stack = []) ∨ stackTopIsDotDot stack then
    comp :: stack
  else match stack with
    | _ :: rest => rest
    | [] => []

/-- `posixpath.normpath`. -/
def normpath (path : String) : String :=
  if path = "" then "."
  else
    let initSl : Nat :=
      if strHasPfx "/" path then
        (if strHasPfx "//" path ∧ ¬ strHasPfx "///" path then 2 else 1)
      else 0
    let stack := (splitSlash path).foldl (normStep (initSl ≠ 0)) []
    let out := String.mk (List.replicate initSl '/') ++ String.intercalate "/" stack.reverse
    if out = "" then "." else out

/-- `posixpath.join(a, b)` for two components. -/
def pathJoin (a b : String) : String :=
  if strHasPfx "/" b then b
  else if a = "" ∨ strHasSfx "/" a then a ++ b
  else a ++ "/" ++ b

/-- `posixpath.abspath(p)` relative to a current working directory. -/
def abspath (cwd p : String) : String :=
  if strHasPfx "/" p then normpath p else normpath (pathJoin cwd p)

/-! ### Environment, metadata dictionaries and the filesystem model -/

/-- Process environment: the resolved XDG cache directory (the value of
`os.getenv('XDG_CACHE_HOME', os.path.expanduser('~/.cache'))`) and the
working directory used by `os.path.abspath`. -/
structure Env where
  xdgCacheHome : String
  cwd : String

/-- `_thumb_path_prefix()`: `os.path.join(os.path.normpath(xdgcache), 'thumbnails')`. -/
def thumbPathRoot (env : Env) : String :=
  pathJoin (normpath env.xdgCacheHome) "thumbnails"

/-- `_any2uri(sth)`: keep URIs, else `file://` plus the escaped absolute path. -/
def any2uri (env : Env) (sth : String) : String :=
  if uriReMatch sth then sth else "file://" ++ pathname2url (abspath env.cwd sth)

/-- `hash_name(src)`: MD5 hex digest of the UTF-8 bytes of the normalized URI. -/
def hash_name (env : Env) (src : String) : String := md5hex (any2uri env src)

/-- A Python `dict` with string keys and values, keeping insertion order. -/
abbrev Dict := List (String × String)

def dictGet : Dict → String → Option String
  | [], _ => none
  | (k2, w) :: rest, k => if k2 = k then some w else dictGet rest k

def dictMember (d : Dict) (k : String) : Bool := (dictGet d k).isSome

/-- `d[k] = v`: replace the entry in place when the key is present (keys in a
Python dict are unique), else append it, preserving insertion order. -/
def dictSet : Dict → String → String → Dict
  | [], k, v => [(k, v)]
  | (k2, w) :: rest, k, v =>
    if k2 = k then (k, v) :: rest else (k2, w) :: dictSet rest k v

/-- `dict(a, **b)`: a copy of `a` updated with every entry of `b`. -/
def dictMerge (a b : Dict) : Dict := b.foldl (fun d kv => dictSet d kv.1 kv.2) a

/-- The filesystem state.  `files` maps a path to `none` (absent),
`some none` (present but not readable as an image) or `some (some d)`
(an image whose embedded text fields are `d`); `mtimes` and `sizes` model
`os.path.getmtime` (already truncated to integer seconds) and
`os.path.getsize`, raising `OSError` when `none`. -/
structure FS where
  files : String → Option (Option Dict)
  mtimes : String → Option Int
  sizes : String → Option Int

/-- Replace the `files` entry at one path. -/
def FS.setFile (fs : FS) (q : String) (e : Option (Option Dict)) : FS :=
  { fs with files := fun p => if p = q then e else fs.files p }

def KEY_URI : String := "Thumb::URI"
def KEY_MTIME : String := "Thumb::MTime"
def KEY_SIZE : String := "Thumb::Size"

/-- `_any2mtime(origname, mtime)`: explicit mtime coerced with
`int(float(...))`, else the file's own mtime (`OSError` for a non-local
or missing source). -/
def any2mtime (fs : FS) (origname : String) (mtime : Option PyVal) : Py Int :=
  match mtime with
  | none =>
    match fs.mtimes origname with
    | some m => .ok m
    | none => .error "OSError"
  | some v => pyFloatInt v

/-! ### Size classes (`_any2size`) -/

/-- What `_any2size` returns: a `(dimension, name)` pair for the exact
enumerated requests, a bare dimension for in-range numeric requests. -/
inductive SizeRet where
  | pair (dim : Int) (name : String)
  | bare (dim : Int)
  deriving DecidableEq, Repr

/-- The pixel dimension carried by a `_any2size` result. -/
def SizeRet.dim : SizeRet → Int
  | .pair d _ => d
  | .bare d => d

/-- `r[0]` on a `_any2size` result: subscripting a bare `int` raises `TypeError`. -/
def SizeRet.sub0 : SizeRet → Py Int
  | .pair d _ => .ok d
  | .bare _ => .error "TypeError"

/-- `r[1]` on a `_any2size` result: subscripting a bare `int` raises `TypeError`. -/
def SizeRet.sub1 : SizeRet → Py String
  | .pair _ n => .ok n
  | .bare _ => .error "TypeError"

/-- `_any2size(size)`.  The enumerated memberships use Python `in` over
mixed tuples (`'normal'`, `128`, `'128'`); comparing a leftover `str` with
`0 < size` raises `TypeError` in Python 3; sizes outside every range raise
`ValueError`. -/
def any2size (size : PyVal) : Py SizeRet :=
  if size = .str "normal" ∨ size = .int 128 ∨ size = .str "128" then
    .ok (.pair 128 "normal")
  else if size = .str "large" ∨ size = .int 256 ∨ size = .str "256" then
    .ok (.pair 256 "large")
  else if size = .str "x-large" ∨ size = .int 512 ∨ size = .str "512" then
    .ok (.pair 512 "x-large")
  else if size = .str "xx-large" ∨ size = .int 1024 ∨ size = .str "1024" then
    .ok (.pair 1024 "xx-large")
  else
    match size with
    | .str _ => .error "TypeError"
    | .int n =>
      if 0 < n ∧ n ≤ 128 then .ok (.bare 128)
      else if 128 < n ∧ n ≤ 256 then .ok (.bare 256)
      else if 256 < n ∧ n ≤ 512 then .ok (.bare 512)
      else if 512 < n ∧ n ≤ 1024 then .ok (.bare 1024)
      else .error "ValueError"



/-! ### Metadata readers (`get_info`) and validity -/

/-- The `{'uri': ..., 'mtime': ...}` mapping a `get_info` reader returns. -/
structure TInfo where
  uri : String
  mtime : Int
  deriving DecidableEq, Repr

/-- `PilBackend.get_info(path)`, applied to the `files` entry at `path`:
`None` when the file is missing or unreadable (`OSError`), when `Thumb::URI`
is absent even after `load()` (`KeyError`), when `Thumb::MTime` is absent
(`KeyError`) or when `int(float(...))` on it fails (`ValueError`). -/
def pilGetInfo (entry : Option (Option Dict)) : Option TInfo :=
  match entry with
  | none => none
  | some none => none
  | some (some d) =>
    match dictGet d KEY_URI with
    | none => none
    | some uri =>
      match dictGet d KEY_MTIME with
      | none => none
      | some ms =>
        match pyParseFloatInt ms with
        | none => none
        | some m => some ⟨uri, m⟩

/-- `MagickBackend.get_info(path)`: `img.attribute` yields an empty value for
an absent attribute, and the source coerces it with `or 0`, so a file missing
`Thumb::MTime` reads as mtime `0`, and one missing `Thumb::URI` reads as an
empty URI.  (`QtBackend.get_info` uses the same `img.text(...) or 0` shape.) -/
def magickGetInfo (entry : Option (Option Dict)) : Option TInfo :=
  match entry with
  | none => none
  | some none => none
  | some (some d) =>
    let ms := (dictGet d KEY_MTIME).getD ""
    match (if ms = "" then some 0 else pyParseFloatInt ms : Option Int) with
    | none => none
    | some m => some ⟨(dictGet d KEY_URI).getD "", m⟩

/-- A `get_info` reader: `get_metadata_backend().get_info`, whichever of the
Qt/PIL/Magick backends is available in the running environment. -/
abbrev GetInfo := Option (Option Dict) → Option TInfo

/-- `is_thumbnail_valid(thumbnail, uri, mtime)`: the first line coerces
`mtime` with `int(float(...))` (identity on the modelled `Int`); a `None`
info triggers the caught `TypeError`, giving `False`. -/
def is_thumbnail_valid (getInfo : GetInfo) (fs : FS) (thumbnail uri : String)
    (mtime : Int) : Bool :=
  match getInfo (fs.files thumbnail) with
  | none => false
  | some info => info.uri == uri && info.mtime == mtime

/-! ### Cache-path derivation and failure markers -/

/-- `build_thumbnail_path(src, size)`. -/
def build_thumbnail_path (env : Env) (src : String) (size : PyVal) : Py String := do
  let sizename ← (← any2size size).sub1
  let pfx := pathJoin (thumbPathRoot env) sizename
  if strHasPfx (pfx ++ "/") src then
    pure src
  else
    pure (pathJoin pfx (hash_name env src ++ ".png"))

/-- The fail-file path `os.path.join(prefix, 'fail', appname, '<md5>.png')`
used by both `put_fail` and `is_thumbnail_failed`. -/
def failFilePath (env : Env) (src appname : String) : String :=
  pathJoin (pathJoin (pathJoin (thumbPathRoot env) "fail") appname)
    (hash_name env src ++ ".png")

/-- `is_thumbnail_failed(src, appname, mtime)`. -/
def is_thumbnail_failed (getInfo : GetInfo) (env : Env) (fs : FS)
    (src appname : String) (mtime : Option PyVal) : Py Bool := do
  let uri := any2uri env src
  let mt ← any2mtime fs src mtime
  let thumb := failFilePath env src appname
  pure ((fs.files thumb).isSome && is_thumbnail_valid getInfo fs thumb uri mt)

/-! ### `_info_dict` and the publish operations -/

/-- The `filesize` step of `_info_dict`. -/
def applyFilesize (d : Dict) (filesize : Option Int) : Dict :=
  match filesize with
  | none => d
  | some n => dictSet d KEY_SIZE (pyStrInt n)

/-- `if KEY_SIZE not in d: d[KEY_SIZE] = str(getsize(src))`, skipped on
`OSError`. -/
def applySizeIfAbsent (fs : FS) (s : String) (d : Dict) : Dict :=
  if dictMember d KEY_SIZE then d
  else match fs.sizes s with
    | none => d
    | some n => dictSet d KEY_SIZE (pyStrInt n)

/-- The `src` tail of `_info_dict`: stamp `Thumb::URI`, then inside a
`try ... except OSError: pass` stamp `Thumb::MTime` from `getmtime` and
`Thumb::Size` from `getsize` when absent; an `OSError` from `getmtime` also
skips the `getsize` statement. -/
def infoDictSrc (env : Env) (fs : FS) (d : Dict) (src : Option String) : Dict :=
  match src with
  | none => d
  | some s =>
    let d1 := dictSet d KEY_URI (any2uri env s)
    if dictMember d1 KEY_MTIME then applySizeIfAbsent fs s d1
    else match fs.mtimes s with
      | none => d1
      | some m => applySizeIfAbsent fs s (dictSet d1 KEY_MTIME (pyStrInt m))

/-- `_info_dict(d, mtime, filesize, src)`.  Values are stringified with
`str` (identity here since modelled values are strings); an explicit mtime
is stored as `str(int(mtime))`, whose `int(...)` may raise. -/
def info_dict (env : Env) (fs : FS) (d : Dict) (mtime : Option PyVal)
    (filesize : Option Int) (src : Option String) : Py Dict :=
  match mtime with
  | none => .ok (infoDictSrc env fs (applyFilesize d filesize) src)
  | some v =>
    match pyInt v with
    | .ok m =>
      .ok (infoDictSrc env fs
        (applyFilesize (dictSet d KEY_MTIME (pyStrInt m)) filesize) src)
    | .error e => .error e

/-- `put_thumbnail(src, size, thumb, mtime, moreinfo)`.  The `_mkstemp` /
`os.rename` / `shutil.move` staging is modelled by its net effect: the bytes
at `thumb` end up at `dest` re-saved with exactly the metadata mapping (the
PIL metadata backend re-saves the image with the new PNG text fields and
renames atomically; it raises `OSError` when the staged file cannot be
opened, and never returns a falsy result, so the source's `return None` on a
falsy `update_metadata` is unreachable under this backend). -/
def put_thumbnail (env : Env) (fs : FS) (src : String) (size : PyVal)
    (thumb : String) (mtime : Option PyVal) (moreinfo : Dict) :
    Py (String × FS) := do
  let dest ← build_thumbnail_path env src size
  let info ← info_dict env fs moreinfo mtime none (some src)
  match fs.files thumb with
  | some (some _) =>
    pure (dest, (fs.setFile thumb none).setFile dest (some (some info)))
  | _ => .error "OSError"

/-- `put_fail(src, appname, mtime, moreinfo)`.  `PilBackend.create_fail`
saves a fresh 1x1 image carrying exactly the metadata mapping and renames it
into place, returning `dest`. -/
def put_fail (env : Env) (fs : FS) (src appname : String) (mtime : Option PyVal)
    (moreinfo : Dict) : Py (String × FS) := do
  let dest := failFilePath env src appname
  let info ← info_dict env fs moreinfo mtime none (some src)
  pure (dest, fs.setFile dest (some (some info)))

/-! ### Lookup -/

/-- The probe list of `try_get_thumbnail`: `['large', 'normal']` when no size
is requested, else just the requested size. -/
def probeSizes (size : Option PyVal) : List PyVal :=
  match size with
  | none => [PyVal.str "large", PyVal.str "normal"]
  | some s => [s]

/-- The `for size in sizes` loop body of `try_get_thumbnail`. -/
def tryGetLoop (getInfo : GetInfo) (env : Env) (fs : FS) (src uri : String)
    (mtime : Int) : List PyVal → Py (Option String)
  | [] => .ok none
  | sz :: rest => do
    let thumb ← build_thumbnail_path env src sz
    if (fs.files thumb).isSome then
      if src = thumb then
        pure (some src)
      else if is_thumbnail_valid getInfo fs thumb uri mtime then
        pure (some thumb)
      else
        tryGetLoop getInfo env fs src uri mtime rest
    else
      tryGetLoop getInfo env fs src uri mtime rest

/-- `try_get_thumbnail(src, size, mtime)`. -/
def try_get_thumbnail (getInfo : GetInfo) (env : Env) (fs : FS) (src : String)
    (size : Option PyVal) (mtime : Option PyVal) : Py (Option String) := do
  let mt ← any2mtime fs src mtime
  let uri := any2uri env src
  tryGetLoop getInfo env fs src uri mt (probeSizes size)

/-! ### Backend registry and selection -/

def FILETYPE_IMAGE : String := "image"
def FILETYPE_VIDEO : String := "video"
def FILETYPE_DOCUMENT : String := "document"
def FILETYPE_MISC : String := "misc"

/-- A thumbnailer backend as the registry sees it: its class name and its
`handled_types` category set. -/
structure TBackend where
  name : String
  handledTypes : List String
  deriving DecidableEq, Repr

/-- The built-in `ALL_THUMBNAILER_BACKENDS` in registration order.  (Gnome
`.thumbnailer` descriptor files from `/usr/share/thumbnailers` are appended
at import time; an environment without any is modelled.) -/
def allThumbnailerBackends : List TBackend :=
  [⟨"OooCliBackend", [FILETYPE_DOCUMENT]⟩,
   ⟨"PopplerCliBackend", [FILETYPE_DOCUMENT]⟩,
   ⟨"EvinceCliBackend", [FILETYPE_DOCUMENT]⟩,
   ⟨"AtrilCliBackend", [FILETYPE_DOCUMENT]⟩,
   ⟨"QtBackend", [FILETYPE_IMAGE]⟩,
   ⟨"PilBackend", [FILETYPE_IMAGE]⟩,
   ⟨"MagickBackend", [FILETYPE_IMAGE]⟩]

/-- `select_thumbnailer_types(types)` rebinds the module-level list to
`[b for b in ALL_THUMBNAILER_BACKENDS if b.handled_types & set(types)]`;
the rebuilt list is returned here, from the registered list `all`. -/
def select_thumbnailer_types (all : List TBackend) (types : List String) :
    List TBackend :=
  all.filter fun b => b.handledTypes.any fun t => types.contains t

/-! ### Generation dispatch -/

/-- The `for backend in iter_thumbnail_backends()` loop of `create_thumbnail`.
Each list entry stands for one available backend in priority order: `none`
when it was skipped by MIME filtering or its `create_thumbnail` returned
`None`, `some info` when it succeeded, returning the metadata mapping
`backend_moreinfo` after writing the image to `tmp`. -/
def createLoop (env : Env) (fs : FS) (src : String) (size : PyVal)
    (moreinfo : Dict) (tmp : String) : List (Option Dict) → Py (Option String × FS)
  | [] => .ok (none, fs)
  | none :: rest => createLoop env fs src size moreinfo tmp rest
  | some backendInfo :: _ => do
    let fs1 : FS := fs.setFile tmp (some (some []))
    let merged := dictMerge moreinfo backendInfo
    let m2 ← info_dict env fs1 merged none none (some src)
    let mtimeStr ← match dictGet m2 KEY_MTIME with
      | some s => pure s
      | none => .error "KeyError"
    let r ← put_thumbnail env fs1 src size tmp (some (PyVal.str mtimeStr)) m2
    pure (some r.1, r.2)

/-- `create_thumbnail(src, size, moreinfo, use_fail_appname)`.  `tmp` is the
fresh path `create_temp(size)` returned (an empty, not-yet-readable file in
the size-class directory); `backendResults` drives the backend loop. -/
def create_thumbnail (env : Env) (fs : FS) (src : String) (size : PyVal)
    (moreinfo : Dict) (use_fail_appname : Option String) (tmp : String)
    (backendResults : List (Option Dict)) : Py (Option String × FS) := do
  let _ ← (← any2size size).sub0
  let _ ← (← any2size size).sub1
  let fs0 : FS := fs.setFile tmp (some none)
  let r ← createLoop env fs0 src size moreinfo tmp backendResults
  match r with
  | (some d, fs1) => pure (some d, fs1)
  | (none, fs1) =>
    match use_fail_appname with
    | none => pure (none, fs1)
    | some app => do
      let r2 ← put_fail env fs1 src app none []
      pure (none, r2.2)

/-- `get_thumbnail(src, size, use_fail_appname)` with the generation call
(`create_thumbnail(src, size, use_fail_appname=...)`) abstracted as `gen`. -/
def getThumbnailWith (gen : FS → PyVal → Option String → Py (Option String × FS))
    (getInfo : GetInfo) (env : Env) (fs : FS) (src : String) (size : Option PyVal)
    (use_fail_appname : Option String) : Py (Option String × FS) := do
  let thumb ← try_get_thumbnail getInfo env fs src size none
  match thumb with
  | some t => pure (some t, fs)
  | none => do
    let blocked ← match use_fail_appname with
      | none => pure false
      | some app => do
        let mt ← any2mtime fs src none
        is_thumbnail_failed getInfo env fs src app (some (PyVal.int mt))
    if blocked then
      pure (none, fs)
    else
      gen fs ((size).getD (PyVal.str "large")) use_fail_appname

/-- `get_thumbnail` proper, with `create_thumbnail` plugged in. -/
def get_thumbnail (env : Env) (fs : FS) (src : String) (size : Option PyVal)
    (use_fail_appname : Option String) (tmp : String)
    (backendResults : List (Option Dict)) : Py (Option String × FS) :=
  getThumbnailWith
    (fun fs1 sz app => create_thumbnail env fs1 src sz [] app tmp backendResults)
    pilGetInfo env fs src size use_fail_appname


/-! ## Claims -/

/-! ### C1: size mapping -/

/-- The four size classes in ascending pixel-dimension order. -/
def sizeClasses : List (Int × String) :=
  [(128, "normal"), (256, "large"), (512, "x-large"), (1024, "xx-large")]

/-- The smallest size class whose pixel dimension is at least `n`. -/
def smallestClassGE (n : Int) : Option (Int × String) :=
  sizeClasses.find? fun c => n ≤ c.1

/-- Normal form of `_any2size` on integer requests. -/
theorem any2size_int (n : Int) :
    any2size (PyVal.int n) =
      if n = 128 then .ok (.pair 128 "normal")
      else if n = 256 then .ok (.pair 256 "large")
      else if n = 512 then .ok (.pair 512 "x-large")
      else if n = 1024 then .ok (.pair 1024 "xx-large")
      else if 0 < n ∧ n ≤ 128 then .ok (.bare 128)
      else if 128 < n ∧ n ≤ 256 then .ok (.bare 256)
      else if 256 < n ∧ n ≤ 512 then .ok (.bare 512)
      else if 512 < n ∧ n ≤ 1024 then .ok (.bare 1024)
      else .error "ValueError" := by
  simp [any2size]

/-- C1 counterexample: for the numeric request `1025 > 1024`, `_any2size`
raises `ValueError` instead of returning the largest class, contradicting
the claim's clamping clause. -/
theorem c1_counterexample :
    any2size (PyVal.int 1025) = Except.error "ValueError" := rfl

set_option maxHeartbeats 1600000 in
/-- C1 (amended): the classes are totally ordered by pixel dimension
(128 < 256 < 512 < 1024), and for `0 < n ≤ 1024` `_any2size` returns a
result whose dimension is the smallest class dimension `≥ n`; for every
`n > 1024` it raises `ValueError` rather than clamping to the largest
class. -/
theorem c1_any2size_smallest_class (n : Int) (h1 : 0 < n) (h2 : n ≤ 1024) :
    (∃ r, any2size (PyVal.int n) = .ok r ∧
      (smallestClassGE n).map Prod.fst = some r.dim) ∧
    sizeClasses.Chain' (fun a b => a.1 < b.1) ∧
    (∀ m : Int, 1024 < m → any2size (PyVal.int m) = .error "ValueError") := by
  refine ⟨?_, by norm_num [sizeClasses, List.chain'_cons], ?_⟩
  · rw [any2size_int]
    by_cases hA : n ≤ 128
    · have hs : smallestClassGE n = some (128, "normal") := by
        simp [smallestClassGE, sizeClasses, List.find?, hA]
      by_cases e : n = 128
      · subst e
        exact ⟨.pair 128 "normal", by norm_num, by simp [hs, SizeRet.dim]⟩
      · refine ⟨.bare 128, ?_, by simp [hs, SizeRet.dim]⟩
        split_ifs <;> first | rfl | (exfalso; omega)
    · by_cases hB : n ≤ 256
      · have hs : smallestClassGE n = some (256, "large") := by
          simp [smallestClassGE, sizeClasses, List.find?, hA, hB]
        by_cases e : n = 256
        · subst e
          exact ⟨.pair 256 "large", by norm_num, by simp [hs, SizeRet.dim]⟩
        · refine ⟨.bare 256, ?_, by simp [hs, SizeRet.dim]⟩
          split_ifs <;> first | rfl | (exfalso; omega)
      · by_cases hC : n ≤ 512
        · have hs : smallestClassGE n = some (512, "x-large") := by
            simp [smallestClassGE, sizeClasses, List.find?, hA, hB, hC]
          by_cases e : n = 512
          · subst e
            exact ⟨.pair 512 "x-large", by norm_num, by simp [hs, SizeRet.dim]⟩
          · refine ⟨.bare 512, ?_, by simp [hs, SizeRet.dim]⟩
            split_ifs <;> first | rfl | (exfalso; omega)
        · have hs : smallestClassGE n = some (1024, "xx-large") := by
            simp [smallestClassGE, sizeClasses, List.find?, hA, hB, hC, h2]
          by_cases e : n = 1024
          · subst e
            exact ⟨.pair 1024 "xx-large", by norm_num, by simp [hs, SizeRet.dim]⟩
          · refine ⟨.bare 1024, ?_, by simp [hs, SizeRet.dim]⟩
            split_ifs <;> first | rfl | (exfalso; omega)
  · intro m hm
    rw [any2size_int]
    split_ifs <;> first | rfl | (exfalso; omega)

/-- Witness for C1 at the concrete request 200. -/
theorem c1_witness :
    (∃ r, any2size (PyVal.int 200) = .ok r ∧
      (smallestClassGE 200).map Prod.fst = some r.dim) ∧
    sizeClasses.Chain' (fun a b => a.1 < b.1) ∧
    (∀ m : Int, 1024 < m → any2size (PyVal.int m) = .error "ValueError") :=
  c1_any2size_smallest_class 200 (by decide) (by decide)

/-! ### C2: backend selection -/

/-- C2 counterexample: the empty category filter selects the empty list,
not the full registered list (which is nonempty). -/
theorem c2_counterexample :
    select_thumbnailer_types allThumbnailerBackends [] = [] ∧
    allThumbnailerBackends ≠ [] := by
  constructor
  · rfl
  · intro h
    exact absurd (congrArg List.length h) (by decide)

/-- C2 (amended): selection returns the order-preserving subsequence of the
registered list whose handled-category set intersects the filter; the empty
filter selects the empty list (everything is filtered out), not the full
list. -/
theorem c2_select_filters (all : List TBackend) (types : List String) :
    (select_thumbnailer_types all types).Sublist all ∧
    (∀ b, b ∈ select_thumbnailer_types all types ↔
      b ∈ all ∧ ∃ t ∈ b.handledTypes, t ∈ types) ∧
    (types = [] → select_thumbnailer_types all types = []) := by
  refine ⟨List.filter_sublist _, ?_, ?_⟩
  · intro b
    simp [select_thumbnailer_types, List.mem_filter, List.any_eq_true]
  · rintro rfl
    simp [select_thumbnailer_types]

/-- Witness for C2: the image-only filter applied to the registered list. -/
theorem c2_witness :
    select_thumbnailer_types allThumbnailerBackends [] = [] :=
  (c2_select_filters allThumbnailerBackends []).2.2 rfl


/-! ### Shared lemmas: dictionaries, `_info_dict`, `build_thumbnail_path` -/

theorem dictGet_nil (k : String) : dictGet [] k = none := rfl

theorem dictGet_set_self (d : Dict) (k v : String) :
    dictGet (dictSet d k v) k = some v := by
  induction d with
  | nil => simp [dictSet, dictGet]
  | cons kv rest ih =>
    obtain ⟨k2, w⟩ := kv
    by_cases h : k2 = k
    · simp [dictSet, dictGet, h]
    · simp [dictSet, dictGet, h, ih]

theorem dictGet_set_other (d : Dict) (k k2 v : String) (h : k ≠ k2) :
    dictGet (dictSet d k2 v) k = dictGet d k := by
  induction d with
  | nil => simp [dictSet, dictGet, Ne.symm h]
  | cons kv rest ih =>
    obtain ⟨k3, w⟩ := kv
    by_cases h3 : k3 = k2
    · subst h3
      simp [dictSet, dictGet, Ne.symm h]
    · by_cases hk : k3 = k
      · simp [dictSet, dictGet, h3, hk, h]
      · simp [dictSet, dictGet, h3, hk, ih]

theorem dictMember_set_other (d : Dict) (k k2 v : String) (h : k ≠ k2) :
    dictMember (dictSet d k2 v) k = dictMember d k := by
  unfold dictMember
  rw [dictGet_set_other d k k2 v h]

theorem keyURI_ne_keyMTIME : KEY_URI ≠ KEY_MTIME := by decide
theorem keySIZE_ne_keyMTIME : KEY_SIZE ≠ KEY_MTIME := by decide
theorem keySIZE_ne_keyURI : KEY_SIZE ≠ KEY_URI := by decide

/-- The size step never changes other keys. -/
theorem applySizeIfAbsent_gets (fs : FS) (s : String) (d : Dict) (k : String)
    (h : k ≠ KEY_SIZE) :
    dictGet (applySizeIfAbsent fs s d) k = dictGet d k := by
  unfold applySizeIfAbsent
  by_cases hS : dictMember d KEY_SIZE
  · rw [if_pos hS]
  · rw [if_neg hS]
    cases fs.sizes s with
    | none => rfl
    | some n => exact dictGet_set_other d k KEY_SIZE (pyStrInt n) h

/-- What `infoDictSrc` publishes for the two mandatory keys. -/
theorem infoDictSrc_gets (env : Env) (fs : FS) (d : Dict) (s : String) :
    dictGet (infoDictSrc env fs d (some s)) KEY_URI = some (any2uri env s) ∧
    dictGet (infoDictSrc env fs d (some s)) KEY_MTIME =
      (match dictGet d KEY_MTIME with
        | some v => some v
        | none => (fs.mtimes s).map pyStrInt) := by
  unfold infoDictSrc
  simp only
  have hU1 : dictGet (dictSet d KEY_URI (any2uri env s)) KEY_URI
      = some (any2uri env s) := dictGet_set_self _ _ _
  have hM1 : dictGet (dictSet d KEY_URI (any2uri env s)) KEY_MTIME
      = dictGet d KEY_MTIME :=
    dictGet_set_other d KEY_MTIME KEY_URI (any2uri env s) keyURI_ne_keyMTIME.symm
  by_cases hMm : dictMember (dictSet d KEY_URI (any2uri env s)) KEY_MTIME
  · rw [if_pos hMm]
    cases hd : dictGet d KEY_MTIME with
    | none =>
      exfalso
      unfold dictMember at hMm
      rw [hM1, hd] at hMm
      exact absurd hMm (by simp)
    | some v =>
      constructor
      · rw [applySizeIfAbsent_gets fs s _ KEY_URI keySIZE_ne_keyURI.symm, hU1]
      · rw [applySizeIfAbsent_gets fs s _ KEY_MTIME keySIZE_ne_keyMTIME.symm, hM1, hd]
  · rw [if_neg hMm]
    have hd : dictGet d KEY_MTIME = none := by
      unfold dictMember at hMm
      rw [hM1] at hMm
      cases hx : dictGet d KEY_MTIME with
      | none => rfl
      | some v =>
        rw [hx] at hMm
        exact absurd rfl hMm
    cases hmt : fs.mtimes s with
    | none =>
      rw [hd]
      exact ⟨hU1, by simp [hM1, hd, hmt]⟩
    | some m =>
      rw [hd]
      constructor
      · rw [applySizeIfAbsent_gets fs s _ KEY_URI keySIZE_ne_keyURI.symm,
          dictGet_set_other _ KEY_URI KEY_MTIME (pyStrInt m) keyURI_ne_keyMTIME, hU1]
      · rw [applySizeIfAbsent_gets fs s _ KEY_MTIME keySIZE_ne_keyMTIME.symm,
          dictGet_set_self]
        rfl

/-- `_info_dict` with an explicit mtime always publishes `Thumb::URI` from
the source and `Thumb::MTime` as `str(int(mtime))`, whatever else is in `d`. -/
theorem info_dict_with_mtime (env : Env) (fs : FS) (d : Dict) (v : PyVal)
    (m : Int) (s : String) (hv : pyInt v = .ok m) :
    info_dict env fs d (some v) none (some s) =
      .ok (infoDictSrc env fs (dictSet d KEY_MTIME (pyStrInt m)) (some s)) ∧
    dictGet (infoDictSrc env fs (dictSet d KEY_MTIME (pyStrInt m)) (some s)) KEY_URI
      = some (any2uri env s) ∧
    dictGet (infoDictSrc env fs (dictSet d KEY_MTIME (pyStrInt m)) (some s)) KEY_MTIME
      = some (pyStrInt m) := by
  obtain ⟨hU, hM⟩ := infoDictSrc_gets env fs (dictSet d KEY_MTIME (pyStrInt m)) s
  refine ⟨?_, hU, ?_⟩
  · simp only [info_dict, hv, applyFilesize]
  · rw [hM, dictGet_set_self]

/-- `_info_dict` with no explicit mtime: an existing `Thumb::MTime` in `d`
is left untouched; an absent one is stamped from `getmtime`. -/
theorem info_dict_no_mtime (env : Env) (fs : FS) (d : Dict) (s : String) :
    info_dict env fs d none none (some s) = .ok (infoDictSrc env fs d (some s)) ∧
    dictGet (infoDictSrc env fs d (some s)) KEY_URI = some (any2uri env s) ∧
    dictGet (infoDictSrc env fs d (some s)) KEY_MTIME =
      (match dictGet d KEY_MTIME with
        | some v => some v
        | none => (fs.mtimes s).map pyStrInt) := by
  obtain ⟨hU, hM⟩ := infoDictSrc_gets env fs d s
  exact ⟨rfl, hU, hM⟩

theorem py_bind_ok {α β : Type} (a : α) (f : α → Py β) :
    (Except.ok a : Py α) >>= f = f a := rfl

theorem py_bind_error {α β : Type} (e : String) (f : α → Py β) :
    (Except.error e : Py α) >>= f = .error e := rfl

theorem py_pure {α : Type} (a : α) : (pure a : Py α) = .ok a := rfl

/-- The size-class directory `os.path.join(_thumb_path_prefix(), name)`. -/
def sizeDirPath (env : Env) (name : String) : String :=
  pathJoin (thumbPathRoot env) name

/-- The derived cache location `os.path.join(prefix, '<md5>.png')`. -/
def hashedThumbPath (env : Env) (name src : String) : String :=
  pathJoin (sizeDirPath env name) (hash_name env src ++ ".png")

/-- Normal form of `build_thumbnail_path` once the size argument resolves to
a `(dim, name)` class. -/
theorem build_path_eq (env : Env) (src : String) (size : PyVal) (dim : Int)
    (name : String) (h : any2size size = .ok (.pair dim name)) :
    build_thumbnail_path env src size =
      .ok (if strHasPfx (sizeDirPath env name ++ "/") src then src
        else hashedThumbPath env name src) := by
  unfold build_thumbnail_path
  rw [h]
  simp only [py_bind_ok, SizeRet.sub1, py_pure, sizeDirPath, hashedThumbPath]
  by_cases hc : strHasPfx (pathJoin (thumbPathRoot env) name ++ "/") src
  · rw [if_pos hc, if_pos hc]
  · rw [if_neg hc, if_neg hc]


/-! ### C5: cache-path derivation -/

def isHexLowerChar (c : Char) : Bool := c.isDigit || ('a' ≤ c && c ≤ 'f')

/-- The naming pattern the spec claims is checked: 32 hex digits then `.png`. -/
def matchesThumbName (name : String) : Bool :=
  name.toList.length == 36 && (name.toList.take 32).all isHexLowerChar &&
    name.toList.drop 32 == ['.', 'p', 'n', 'g']

/-- C5 counterexample: a source sitting inside the size-class directory whose
filename does not match the 32-hex-digit pattern is still returned unchanged,
while the claim would require the derived `<md5>.png` path (which differs). -/
theorem c5_counterexample :
    build_thumbnail_path ⟨"/c", "/"⟩ "/c/thumbnails/large/evil.jpg" (PyVal.str "large")
        = .ok "/c/thumbnails/large/evil.jpg" ∧
    matchesThumbName "evil.jpg" = false ∧
    "/c/thumbnails/large/evil.jpg" ≠
      hashedThumbPath ⟨"/c", "/"⟩ "large" "/c/thumbnails/large/evil.jpg" := by
  refine ⟨rfl, rfl, ?_⟩
  decide

/-- C5 (amended): `build_thumbnail_path` returns
`cache_root/<size_class_name>/<md5>.png`, except that whenever `src` merely
starts with the target size-class directory prefix it is returned unchanged —
no naming-pattern check is performed. -/
theorem c5_build_thumbnail_path_spec (env : Env) (src : String) (size : PyVal)
    (dim : Int) (name : String) (h : any2size size = .ok (.pair dim name)) :
    build_thumbnail_path env src size =
      .ok (if strHasPfx (sizeDirPath env name ++ "/") src then src
        else hashedThumbPath env name src) :=
  build_path_eq env src size dim name h

/-- Witness for C5 at a concrete URL source and the `large` class. -/
theorem c5_witness :
    build_thumbnail_path ⟨"/c", "/"⟩ "http://e/x" (PyVal.str "large") =
      .ok (if strHasPfx (sizeDirPath ⟨"/c", "/"⟩ "large" ++ "/") "http://e/x"
        then "http://e/x"
        else hashedThumbPath ⟨"/c", "/"⟩ "large" "http://e/x") :=
  c5_build_thumbnail_path_spec ⟨"/c", "/"⟩ "http://e/x" (PyVal.str "large") 256 "large" rfl

/-! ### C3: validity checking -/

def fsC3 : FS where
  files := fun p =>
    if p = "/c/thumbnails/large/t.png" then some (some [(KEY_URI, "file:///x")])
    else none
  mtimes := fun _ => none
  sizes := fun _ => none

/-- C3 counterexample: under the Magick (or Qt) metadata backend, an entry
with no `Thumb::MTime` field at all is reported valid when the expected mtime
is 0, because `img.attribute(...) or 0` coerces the missing field to 0 —
contradicting the claim that a missing mandatory field always yields false. -/
theorem c3_counterexample :
    is_thumbnail_valid magickGetInfo fsC3 "/c/thumbnails/large/t.png" "file:///x" 0
        = true ∧
    dictGet [(KEY_URI, "file:///x")] KEY_MTIME = none := ⟨rfl, rfl⟩

/-- C3 (amended): under the PIL metadata backend the claimed equivalence holds
exactly: the check returns true iff the file exists and parses as an image,
both mandatory fields are present, the embedded URI equals the expected URI by
string equality, and the embedded mtime string coerces to exactly the expected
integer; every failure mode yields false and the check is a total Boolean
function.  (Under the Magick/Qt readers a missing mtime is coerced to 0, see
the counterexample.) -/
theorem c3_pil_valid_iff (fs : FS) (thumb uri : String) (mtime : Int) :
    is_thumbnail_valid pilGetInfo fs thumb uri mtime = true ↔
      ∃ d ms, fs.files thumb = some (some d) ∧
        dictGet d KEY_URI = some uri ∧
        dictGet d KEY_MTIME = some ms ∧
        pyParseFloatInt ms = some mtime := by
  unfold is_thumbnail_valid pilGetInfo
  cases hf : fs.files thumb with
  | none => simp
  | some e =>
    cases e with
    | none => simp
    | some d =>
      cases hu : dictGet d KEY_URI with
      | none => simp [hu]
      | some u =>
        cases hm : dictGet d KEY_MTIME with
        | none => simp [hu, hm]
        | some ms =>
          cases hp : pyParseFloatInt ms with
          | none => simp [hu, hm, hp]
          | some m =>
            simp only [hu, hm, hp]
            simp only [Option.some.injEq, Bool.and_eq_true, beq_iff_eq]
            constructor
            · rintro ⟨h1, h2⟩
              refine ⟨d, ms, rfl, ?_, hm, ?_⟩
              · rw [hu, h1]
              · rw [hp, h2]
            · rintro ⟨d2, ms2, hdd, h1, h2, h3⟩
              subst hdd
              rw [hu] at h1
              injection h1 with h1
              rw [hm] at h2
              injection h2 with h2
              subst h2
              rw [hp] at h3
              injection h3 with h3
              exact ⟨h1, h3⟩


/-! ### C4 and C10: lookup order and the in-cache bypass -/

/-- One probing step of `try_get_thumbnail` hitting a valid entry. -/
theorem tryGetLoop_cons_valid (getInfo : GetInfo) (env : Env) (fs : FS)
    (src uri : String) (m : Int) (sz : PyVal) (rest : List PyVal) (thumbP : String)
    (hb : build_thumbnail_path env src sz = .ok thumbP)
    (hne : src ≠ thumbP)
    (he : (fs.files thumbP).isSome = true)
    (hv : is_thumbnail_valid getInfo fs thumbP uri m = true) :
    tryGetLoop getInfo env fs src uri m (sz :: rest) = .ok (some thumbP) := by
  unfold tryGetLoop
  rw [hb]
  simp only [py_bind_ok]
  rw [he, hv]
  simp [hne]
  rfl

/-- One probing step of `try_get_thumbnail` hitting the source itself. -/
theorem tryGetLoop_cons_self (getInfo : GetInfo) (env : Env) (fs : FS)
    (src uri : String) (m : Int) (sz : PyVal) (rest : List PyVal)
    (hb : build_thumbnail_path env src sz = .ok src)
    (he : (fs.files src).isSome = true) :
    tryGetLoop getInfo env fs src uri m (sz :: rest) = .ok (some src) := by
  unfold tryGetLoop
  rw [hb]
  simp only [py_bind_ok]
  rw [he]
  simp
  rfl

/-- `_any2mtime` with an explicit integer mtime. -/
theorem any2mtime_int (fs : FS) (src : String) (m : Int) :
    any2mtime fs src (some (.int m)) = .ok m := rfl

/-- C4: with no size class requested, `try_get_thumbnail` probes `large`
before `normal` and returns the first valid hit — when valid entries exist in
both classes, the large path is returned; with an explicit size class, only
that class is probed (requesting `normal` yields the normal path even though
a valid large entry exists). -/
theorem c4_tryget_prefers_large (getInfo : GetInfo) (env : Env) (fs : FS)
    (src : String) (m : Int)
    (hneL : src ≠ hashedThumbPath env "large" src)
    (hneN : src ≠ hashedThumbPath env "normal" src)
    (hnl : strHasPfx (sizeDirPath env "large" ++ "/") src = false)
    (hnn : strHasPfx (sizeDirPath env "normal" ++ "/") src = false)
    (heL : (fs.files (hashedThumbPath env "large" src)).isSome = true)
    (heN : (fs.files (hashedThumbPath env "normal" src)).isSome = true)
    (hvL : is_thumbnail_valid getInfo fs (hashedThumbPath env "large" src)
      (any2uri env src) m = true)
    (hvN : is_thumbnail_valid getInfo fs (hashedThumbPath env "normal" src)
      (any2uri env src) m = true) :
    try_get_thumbnail getInfo env fs src none (some (.int m)) =
      .ok (some (hashedThumbPath env "large" src)) ∧
    try_get_thumbnail getInfo env fs src (some (.str "large")) (some (.int m)) =
      .ok (some (hashedThumbPath env "large" src)) ∧
    try_get_thumbnail getInfo env fs src (some (.str "normal")) (some (.int m)) =
      .ok (some (hashedThumbPath env "normal" src)) := by
  have hbL : build_thumbnail_path env src (.str "large") =
      .ok (hashedThumbPath env "large" src) := by
    rw [build_path_eq env src (.str "large") 256 "large" rfl, hnl]
    rfl
  have hbN : build_thumbnail_path env src (.str "normal") =
      .ok (hashedThumbPath env "normal" src) := by
    rw [build_path_eq env src (.str "normal") 128 "normal" rfl, hnn]
    rfl
  refine ⟨?_, ?_, ?_⟩
  · unfold try_get_thumbnail probeSizes
    rw [any2mtime_int]
    simp only [py_bind_ok]
    exact tryGetLoop_cons_valid getInfo env fs src _ m _ _ _ hbL hneL heL hvL
  · unfold try_get_thumbnail probeSizes
    rw [any2mtime_int]
    simp only [py_bind_ok]
    exact tryGetLoop_cons_valid getInfo env fs src _ m _ _ _ hbL hneL heL hvL
  · unfold try_get_thumbnail probeSizes
    rw [any2mtime_int]
    simp only [py_bind_ok]
    exact tryGetLoop_cons_valid getInfo env fs src _ m _ _ _ hbN hneN heN hvN

/-- The concrete environment used by the witnesses. -/
def envW : Env := ⟨"/c", "/"⟩

/-- A cache holding a valid large and a valid normal entry for the witness. -/
def fsC4 : FS where
  files := fun p =>
    if p = hashedThumbPath envW "large" "http://e/x" ∨
        p = hashedThumbPath envW "normal" "http://e/x" then
      some (some [(KEY_URI, "http://e/x"), (KEY_MTIME, "7")])
    else none
  mtimes := fun _ => none
  sizes := fun _ => none

/-- Witness for C4 on a concrete two-entry cache. -/
theorem c4_witness :
    try_get_thumbnail pilGetInfo envW fsC4 "http://e/x" none (some (.int 7)) =
      .ok (some (hashedThumbPath envW "large" "http://e/x")) ∧
    try_get_thumbnail pilGetInfo envW fsC4 "http://e/x" (some (.str "large"))
        (some (.int 7)) =
      .ok (some (hashedThumbPath envW "large" "http://e/x")) ∧
    try_get_thumbnail pilGetInfo envW fsC4 "http://e/x" (some (.str "normal"))
        (some (.int 7)) =
      .ok (some (hashedThumbPath envW "normal" "http://e/x")) :=
  c4_tryget_prefers_large pilGetInfo envW fsC4 "http://e/x" 7
    (by decide) (by decide) (by decide) (by decide)
    (by simp [fsC4]) (by simp [fsC4]) (by decide) (by decide)

/-- C10: a source that lies inside a probed size-class cache directory and
exists on disk is reported as its own thumbnail whenever the derived path
equals the source, with no validity check at all — `f` is arbitrary, covering
stale or metadata-less files. -/
theorem c10_cache_file_is_its_own_thumbnail (getInfo : GetInfo) (env : Env)
    (fs : FS) (src : String) (m : Int) (f : Option Dict) (sz : PyVal)
    (hb : build_thumbnail_path env src sz = .ok src)
    (hf : fs.files src = some f) :
    try_get_thumbnail getInfo env fs src (some sz) (some (.int m)) = .ok (some src) ∧
    (strHasPfx (sizeDirPath env "large" ++ "/") src = true →
      try_get_thumbnail getInfo env fs src none (some (.int m)) = .ok (some src)) := by
  have he : (fs.files src).isSome = true := by rw [hf]; rfl
  constructor
  · unfold try_get_thumbnail probeSizes
    rw [any2mtime_int]
    simp only [py_bind_ok]
    exact tryGetLoop_cons_self getInfo env fs src _ m _ _ hb he
  · intro hpfx
    have hbL : build_thumbnail_path env src (.str "large") = .ok src := by
      rw [build_path_eq env src (.str "large") 256 "large" rfl, hpfx]
      rfl
    unfold try_get_thumbnail probeSizes
    rw [any2mtime_int]
    simp only [py_bind_ok]
    exact tryGetLoop_cons_self getInfo env fs src _ m _ _ hbL he

/-- A stale, metadata-less file sitting inside the large directory. -/
def fsC10 : FS where
  files := fun p => if p = "/c/thumbnails/large/stale.png" then some none else none
  mtimes := fun _ => none
  sizes := fun _ => none

/-- Witness for C10: a metadata-less PNG inside the large directory. -/
theorem c10_witness :
    try_get_thumbnail pilGetInfo envW fsC10 "/c/thumbnails/large/stale.png"
        (some (.str "large")) (some (.int 3)) =
      .ok (some "/c/thumbnails/large/stale.png") ∧
    (strHasPfx (sizeDirPath envW "large" ++ "/") "/c/thumbnails/large/stale.png" = true →
      try_get_thumbnail pilGetInfo envW fsC10 "/c/thumbnails/large/stale.png"
          none (some (.int 3)) =
        .ok (some "/c/thumbnails/large/stale.png")) :=
  c10_cache_file_is_its_own_thumbnail pilGetInfo envW fsC10
    "/c/thumbnails/large/stale.png" 3 none (.str "large") (by rfl) (by simp [fsC10])


/-! ### C7: per-application failure namespaces -/

theorem toList_append (a b : String) : (a ++ b).toList = a.toList ++ b.toList :=
  String.data_append a b

theorem string_ne_empty_of_append {x b : String} (hb : b ≠ "") : x ++ b ≠ "" := by
  intro h
  apply hb
  have hd := congrArg String.data h
  rw [String.data_append] at hd
  have := List.append_eq_nil.mp hd
  exact String.ext this.2

/-- Bytes produced by `md5Bytes` are below 256. -/
theorem md5Bytes_lt_256 {msg : List Nat} {b : Nat} (h : b ∈ md5Bytes msg) :
    b < 256 := by
  unfold md5Bytes at h
  simp only [List.mem_append, List.mem_map, List.mem_range] at h
  rcases h with ((h | h) | h) | h <;> obtain ⟨i, -, rfl⟩ := h <;>
    exact Nat.mod_lt _ (by omega)

theorem hexDigitChar_ne_slash {n : Nat} (h : n < 16) : hexDigitChar n ≠ '/' := by
  interval_cases n <;> decide

/-- An MD5 hex digest contains no path separator. -/
theorem md5hex_no_slash (s : String) : '/' ∉ (md5hex s).toList := by
  intro hmem
  have hmem2 : '/' ∈ ((md5Bytes (utf8Encode s)).map byteHex).flatten := hmem
  rw [List.mem_flatten] at hmem2
  obtain ⟨lc, hlc, hc⟩ := hmem2
  rw [List.mem_map] at hlc
  obtain ⟨b, hb, rfl⟩ := hlc
  have hblt : b < 256 := md5Bytes_lt_256 hb
  unfold byteHex at hc
  simp only [List.mem_cons, List.not_mem_nil, or_false] at hc
  rcases hc with hc | hc
  · exact hexDigitChar_ne_slash (by omega) hc.symm
  · exact hexDigitChar_ne_slash (by omega) hc.symm

theorem strHasPfx_slash_false {s : String} (h : '/' ∉ s.toList) :
    strHasPfx "/" s = false := by
  unfold strHasPfx
  cases hs : s.toList with
  | nil => rfl
  | cons c cs =>
    have hc : c ≠ '/' := by
      intro e
      exact h (hs ▸ (e ▸ List.mem_cons_self c cs))
    simp [hc]

theorem strHasSfx_slash_false {s : String} (h : '/' ∉ s.toList) :
    strHasSfx "/" s = false := by
  unfold strHasSfx
  cases hs : s.toList.reverse with
  | nil => rfl
  | cons c cs =>
    have hcmem : c ∈ s.toList := by
      have : c ∈ s.toList.reverse := hs ▸ List.mem_cons_self c cs
      simpa using this
    have hc : c ≠ '/' := fun e => h (e ▸ hcmem)
    simp [hc]

theorem strHasPfx_slash_append_false {a b : String}
    (ha : '/' ∉ a.toList) (hb : '/' ∉ b.toList) :
    strHasPfx "/" (a ++ b) = false := by
  apply strHasPfx_slash_false
  rw [toList_append]
  intro h
  rcases List.mem_append.mp h with h | h
  · exact ha h
  · exact hb h

/-- Appending a nonempty suffix that does not end in `/` gives a string that
does not end in `/`. -/
theorem strHasSfx_slash_append_false (x b : String)
    (hb : strHasSfx "/" b = false) (hbne : b ≠ "") :
    strHasSfx "/" (x ++ b) = false := by
  unfold strHasSfx at *
  cases hbr : b.toList.reverse with
  | nil =>
    exfalso
    exact hbne (String.ext (by simpa using congrArg List.reverse hbr))
  | cons c cs =>
    rw [hbr] at hb
    simp only [List.take, List.cons.injEq] at hb
    have hc : c ≠ '/' := by
      intro e
      rw [e] at hb
      simp at hb
    rw [toList_append, List.reverse_append, hbr]
    simp [hc]

theorem pathJoin_normal (a b : String) (hb : strHasPfx "/" b = false)
    (ha1 : a ≠ "") (ha2 : strHasSfx "/" a = false) :
    pathJoin a b = a ++ "/" ++ b := by
  unfold pathJoin
  rw [hb]
  simp only [Bool.false_eq_true, if_false]
  rw [if_neg]
  intro h
  rcases h with h | h
  · exact ha1 h
  · rw [ha2] at h
    exact absurd h (by simp)

/-- `_thumb_path_prefix()` always ends in the literal `thumbnails`. -/
theorem thumbPathRoot_shape (env : Env) :
    ∃ x, thumbPathRoot env = x ++ "thumbnails" := by
  unfold thumbPathRoot pathJoin
  rw [show strHasPfx "/" "thumbnails" = false from rfl]
  simp only [Bool.false_eq_true, if_false]
  by_cases h : normpath env.xdgCacheHome = "" ∨
      strHasSfx "/" (normpath env.xdgCacheHome) = true
  · rw [if_pos h]
    exact ⟨normpath env.xdgCacheHome, rfl⟩
  · rw [if_neg h]
    exact ⟨normpath env.xdgCacheHome ++ "/", rfl⟩

theorem thumbPathRoot_ne_empty (env : Env) : thumbPathRoot env ≠ "" := by
  obtain ⟨x, hx⟩ := thumbPathRoot_shape env
  rw [hx]
  exact string_ne_empty_of_append (by decide)

theorem thumbPathRoot_no_slash_sfx (env : Env) :
    strHasSfx "/" (thumbPathRoot env) = false := by
  obtain ⟨x, hx⟩ := thumbPathRoot_shape env
  rw [hx]
  exact strHasSfx_slash_append_false x "thumbnails" (by decide) (by decide)

/-- Normal form of the fail-file path for a well-formed application name. -/
theorem failFilePath_eq (env : Env) (src app : String)
    (happ : '/' ∉ app.toList) (happ0 : app ≠ "") :
    failFilePath env src app =
      thumbPathRoot env ++ "/" ++ "fail" ++ "/" ++ app ++ "/" ++
        (hash_name env src ++ ".png") := by
  unfold failFilePath
  have h1 : pathJoin (thumbPathRoot env) "fail" = thumbPathRoot env ++ "/" ++ "fail" :=
    pathJoin_normal _ _ (by rfl) (thumbPathRoot_ne_empty env)
      (thumbPathRoot_no_slash_sfx env)
  rw [h1]
  have hA1 : thumbPathRoot env ++ "/" ++ "fail" ≠ "" :=
    string_ne_empty_of_append (by decide)
  have hA2 : strHasSfx "/" (thumbPathRoot env ++ "/" ++ "fail") = false :=
    strHasSfx_slash_append_false _ "fail" (by decide) (by decide)
  have h2 : pathJoin (thumbPathRoot env ++ "/" ++ "fail") app =
      thumbPathRoot env ++ "/" ++ "fail" ++ "/" ++ app :=
    pathJoin_normal _ _ (strHasPfx_slash_false happ) hA1 hA2
  rw [h2]
  have hB1 : thumbPathRoot env ++ "/" ++ "fail" ++ "/" ++ app ≠ "" :=
    string_ne_empty_of_append happ0
  have hB2 : strHasSfx "/" (thumbPathRoot env ++ "/" ++ "fail" ++ "/" ++ app) = false :=
    strHasSfx_slash_append_false _ app (strHasSfx_slash_false happ) happ0
  have hfile : strHasPfx "/" (hash_name env src ++ ".png") = false :=
    strHasPfx_slash_append_false (md5hex_no_slash _) (by decide)
  exact pathJoin_normal _ _ hfile hB1 hB2

/-- Distinct well-formed application names give distinct fail-file paths. -/
theorem failFilePath_inj (env : Env) (src foo bar : String)
    (hfoo : '/' ∉ foo.toList) (hbar : '/' ∉ bar.toList)
    (hfoo0 : foo ≠ "") (hbar0 : bar ≠ "")
    (heq : failFilePath env src foo = failFilePath env src bar) : foo = bar := by
  rw [failFilePath_eq env src foo hfoo hfoo0,
    failFilePath_eq env src bar hbar hbar0] at heq
  have hd := congrArg String.data heq
  simp only [String.data_append, List.append_assoc] at hd
  have h1 := List.append_cancel_left hd
  have h2 := List.append_cancel_left h1
  have h3 := List.append_cancel_left h2
  have h4 := List.append_cancel_left h3
  exact String.ext (List.append_cancel_right h4)


/-- `put_fail` computed: it stores the `_info_dict` metadata at the fail path. -/
theorem put_fail_eq (env : Env) (fs : FS) (src app : String) (m : Int) :
    put_fail env fs src app (some (.int m)) [] =
      .ok (failFilePath env src app,
        fs.setFile (failFilePath env src app)
          (some (some (infoDictSrc env fs (dictSet [] KEY_MTIME (pyStrInt m))
            (some src))))) := by
  obtain ⟨hid, -, -⟩ := info_dict_with_mtime env fs [] (.int m) m src rfl
  unfold put_fail
  rw [hid]
  rfl

/-- A freshly written fail marker passes the PIL validity check against the
same source and mtime. -/
theorem putfail_marker_valid (env : Env) (fs fs2 : FS) (src : String) (m : Int)
    (p : String)
    (hfl : fs2.files p =
      some (some (infoDictSrc env fs (dictSet [] KEY_MTIME (pyStrInt m)) (some src)))) :
    is_thumbnail_valid pilGetInfo fs2 p (any2uri env src) m = true := by
  obtain ⟨-, hU, hM⟩ := info_dict_with_mtime env fs [] (.int m) m src rfl
  unfold is_thumbnail_valid
  rw [hfl]
  simp only [pilGetInfo, hU, hM, pyParseFloatInt_pyStrInt]
  simp

/-- C7: a failure marker stored under app name `foo` makes
`is_thumbnail_failed` answer true for `foo` and false for every distinct
well-formed app name `bar` whose own fail path holds no marker. -/
theorem c7_put_fail_blocks_only_its_app (env : Env) (fs : FS)
    (src foo bar : String) (m : Int)
    (hne : foo ≠ bar)
    (hfoo : '/' ∉ foo.toList) (hbar : '/' ∉ bar.toList)
    (hfoo0 : foo ≠ "") (hbar0 : bar ≠ "")
    (hnm : fs.files (failFilePath env src bar) = none) :
    ∃ fs2, put_fail env fs src foo (some (.int m)) [] =
        .ok (failFilePath env src foo, fs2) ∧
      is_thumbnail_failed pilGetInfo env fs2 src foo (some (.int m)) = .ok true ∧
      is_thumbnail_failed pilGetInfo env fs2 src bar (some (.int m)) = .ok false := by
  refine ⟨_, put_fail_eq env fs src foo m, ?_, ?_⟩
  · unfold is_thumbnail_failed
    rw [any2mtime_int]
    simp only [py_bind_ok, py_pure]
    have hfl : (fs.setFile (failFilePath env src foo)
        (some (some (infoDictSrc env fs (dictSet [] KEY_MTIME (pyStrInt m))
          (some src))))).files (failFilePath env src foo) =
        some (some (infoDictSrc env fs (dictSet [] KEY_MTIME (pyStrInt m))
          (some src))) := by
      simp [FS.setFile]
    rw [hfl, putfail_marker_valid env fs _ src m _ hfl]
    rfl
  · unfold is_thumbnail_failed
    rw [any2mtime_int]
    simp only [py_bind_ok, py_pure]
    have hnebp : failFilePath env src bar ≠ failFilePath env src foo := by
      intro h
      exact hne (failFilePath_inj env src bar foo hbar hfoo hbar0 hfoo0 h).symm
    have hfl : (fs.setFile (failFilePath env src foo)
        (some (some (infoDictSrc env fs (dictSet [] KEY_MTIME (pyStrInt m))
          (some src))))).files (failFilePath env src bar) = none := by
      simp only [FS.setFile]
      rw [if_neg hnebp]
      exact hnm
    rw [hfl]
    rfl

/-- An empty filesystem for witnesses. -/
def fsEmpty : FS := ⟨fun _ => none, fun _ => none, fun _ => none⟩

/-- Witness for C7 with app names `foo`/`bar` and an URL source. -/
theorem c7_witness :
    ∃ fs2, put_fail envW fsEmpty "http://e/x" "foo" (some (.int 5)) [] =
        .ok (failFilePath envW "http://e/x" "foo", fs2) ∧
      is_thumbnail_failed pilGetInfo envW fs2 "http://e/x" "foo" (some (.int 5)) =
        .ok true ∧
      is_thumbnail_failed pilGetInfo envW fs2 "http://e/x" "bar" (some (.int 5)) =
        .ok false :=
  c7_put_fail_blocks_only_its_app envW fsEmpty "http://e/x" "foo" "bar" 5
    (by decide) (by decide) (by decide) (by decide) (by decide) rfl


/-! ### C8: store / lookup round trip -/

/-- A probing step that finds an existing but invalid entry moves on. -/
theorem tryGetLoop_cons_invalid (getInfo : GetInfo) (env : Env) (fs : FS)
    (src uri : String) (m : Int) (sz : PyVal) (rest : List PyVal) (thumbP : String)
    (hb : build_thumbnail_path env src sz = .ok thumbP)
    (hne : src ≠ thumbP)
    (he : (fs.files thumbP).isSome = true)
    (hv : is_thumbnail_valid getInfo fs thumbP uri m = false) :
    tryGetLoop getInfo env fs src uri m (sz :: rest) =
      tryGetLoop getInfo env fs src uri m rest := by
  unfold tryGetLoop
  rw [hb]
  simp only [py_bind_ok]
  rw [he, hv]
  simp [hne]
  cases rest <;> rfl

/-- A freshly stamped entry is stale for any other expected mtime. -/
theorem stamped_entry_stale (env : Env) (fs fs2 : FS) (src : String)
    (m m2 : Int) (p : String)
    (hfl : fs2.files p =
      some (some (infoDictSrc env fs (dictSet [] KEY_MTIME (pyStrInt m)) (some src))))
    (hmm : m ≠ m2) :
    is_thumbnail_valid pilGetInfo fs2 p (any2uri env src) m2 = false := by
  obtain ⟨-, hU, hM⟩ := info_dict_with_mtime env fs [] (.int m) m src rfl
  unfold is_thumbnail_valid
  rw [hfl]
  simp only [pilGetInfo, hU, hM, pyParseFloatInt_pyStrInt]
  simp [hmm]

/-! ### C6: restamping of the mandatory identity fields -/

theorem pyInt_str_roundtrip (m : Int) : pyInt (.str (pyStrInt m)) = .ok m := by
  simp [pyInt, pyParseInt_pyStrInt]

theorem setFile_mtimes (fs : FS) (q : String) (e : Option (Option Dict)) :
    (fs.setFile q e).mtimes = fs.mtimes := rfl

theorem setFile_files_self (fs : FS) (q : String) (e : Option (Option Dict)) :
    (fs.setFile q e).files q = e := by
  simp [FS.setFile]

/-- `put_thumbnail` computed in general form: staged file readable, explicit
mtime convertible by `int(...)`. -/
theorem put_thumbnail_eq_general (env : Env) (fs : FS) (src thumb : String)
    (size : PyVal) (dim : Int) (name : String) (v : PyVal) (mv : Int)
    (moreinfo d0 : Dict)
    (hsz : any2size size = .ok (.pair dim name))
    (hv : pyInt v = .ok mv)
    (hthumb : fs.files thumb = some (some d0)) :
    put_thumbnail env fs src size thumb (some v) moreinfo =
      .ok ((if strHasPfx (sizeDirPath env name ++ "/") src then src
          else hashedThumbPath env name src),
        (fs.setFile thumb none).setFile
          (if strHasPfx (sizeDirPath env name ++ "/") src then src
            else hashedThumbPath env name src)
          (some (some (infoDictSrc env fs (dictSet moreinfo KEY_MTIME (pyStrInt mv))
            (some src))))) := by
  obtain ⟨hid, -, -⟩ := info_dict_with_mtime env fs moreinfo v mv src hv
  unfold put_thumbnail
  rw [build_path_eq env src size dim name hsz]
  simp only [py_bind_ok]
  rw [hid]
  simp only [py_bind_ok]
  rw [hthumb]
  rfl

/-- `create_thumbnail` with one winning backend, computed: the backend writes
`tmp`, the dispatcher merges the metadata, extracts the mtime string, and
publishes through `put_thumbnail`. -/
theorem create_thumbnail_single_eq (env : Env) (fs : FS) (src : String)
    (moreinfo bInfo : Dict) (tmp : String) (mtimeStr : String) (mv : Int)
    (hms : dictGet (infoDictSrc env
        ((fs.setFile tmp (some none)).setFile tmp (some (some [])))
        (dictMerge moreinfo bInfo) (some src)) KEY_MTIME = some mtimeStr)
    (hv : pyInt (.str mtimeStr) = .ok mv) :
    create_thumbnail env fs src (.str "large") moreinfo none tmp [some bInfo] =
      .ok (some (if strHasPfx (sizeDirPath env "large" ++ "/") src then src
          else hashedThumbPath env "large" src),
        ((((fs.setFile tmp (some none)).setFile tmp (some (some []))).setFile
            tmp none).setFile
          (if strHasPfx (sizeDirPath env "large" ++ "/") src then src
            else hashedThumbPath env "large" src)
          (some (some (infoDictSrc env
            ((fs.setFile tmp (some none)).setFile tmp (some (some [])))
            (dictSet (infoDictSrc env
                ((fs.setFile tmp (some none)).setFile tmp (some (some [])))
                (dictMerge moreinfo bInfo) (some src))
              KEY_MTIME (pyStrInt mv))
            (some src)))))) := by
  have hsz0 : any2size (PyVal.str "large") = .ok (.pair 256 "large") := rfl
  obtain ⟨hid, -, -⟩ := info_dict_no_mtime env
    ((fs.setFile tmp (some none)).setFile tmp (some (some [])))
    (dictMerge moreinfo bInfo) src
  unfold create_thumbnail createLoop
  rw [hsz0]
  simp only [py_bind_ok, SizeRet.sub0, SizeRet.sub1]
  rw [hid]
  simp only [py_bind_ok]
  rw [hms]
  simp only [py_bind_ok, py_pure]
  rw [put_thumbnail_eq_general env
    ((fs.setFile tmp (some none)).setFile tmp (some (some []))) src tmp
    (.str "large") 256 "large" (.str mtimeStr) mv
    (infoDictSrc env ((fs.setFile tmp (some none)).setFile tmp (some (some [])))
      (dictMerge moreinfo bInfo) (some src)) []
    hsz0 hv (setFile_files_self _ tmp _)]
  rfl

/-- C6 (amended): for every dispatch through `create_thumbnail` with a winning
backend, the published `Thumb::URI` is always restamped from the source's
normalized URI; `Thumb::MTime` is restamped from the source's filesystem mtime
only when neither the caller's `moreinfo` nor the backend's returned mapping
supplies one — a backend-supplied `Thumb::MTime` (normalized by
`str(int(...))`) is what gets published, so a misbehaving backend can make the
published mtime differ from the source's. -/
theorem c6_mandatory_stamping (env : Env) (fs : FS) (src : String)
    (moreinfo bInfo : Dict) (tmp : String) (m : Int)
    (hmt : fs.mtimes src = some m) :
    (dictGet (dictMerge moreinfo bInfo) KEY_MTIME = none →
      ∃ dest fs2 pub,
        create_thumbnail env fs src (.str "large") moreinfo none tmp [some bInfo] =
          .ok (some dest, fs2) ∧
        fs2.files dest = some (some pub) ∧
        dictGet pub KEY_URI = some (any2uri env src) ∧
        dictGet pub KEY_MTIME = some (pyStrInt m)) ∧
    (∀ sv k, dictGet (dictMerge moreinfo bInfo) KEY_MTIME = some sv →
      pyParseInt sv = some k →
      ∃ dest fs2 pub,
        create_thumbnail env fs src (.str "large") moreinfo none tmp [some bInfo] =
          .ok (some dest, fs2) ∧
        fs2.files dest = some (some pub) ∧
        dictGet pub KEY_URI = some (any2uri env src) ∧
        dictGet pub KEY_MTIME = some (pyStrInt k)) := by
  constructor
  · intro hnom
    obtain ⟨-, -, hM2⟩ := info_dict_no_mtime env
      ((fs.setFile tmp (some none)).setFile tmp (some (some [])))
      (dictMerge moreinfo bInfo) src
    rw [hnom] at hM2
    rw [show ((fs.setFile tmp (some none)).setFile tmp (some (some []))).mtimes src
        = some m from hmt] at hM2
    simp only [Option.map_some] at hM2
    obtain ⟨-, hU3, hM3⟩ := info_dict_with_mtime env
      ((fs.setFile tmp (some none)).setFile tmp (some (some [])))
      (infoDictSrc env ((fs.setFile tmp (some none)).setFile tmp (some (some [])))
        (dictMerge moreinfo bInfo) (some src))
      (.str (pyStrInt m)) m src (pyInt_str_roundtrip m)
    exact ⟨_, _, _,
      create_thumbnail_single_eq env fs src moreinfo bInfo tmp (pyStrInt m) m
        hM2 (pyInt_str_roundtrip m),
      setFile_files_self _ _ _, hU3, hM3⟩
  · intro sv k hsv hk
    obtain ⟨-, -, hM2⟩ := info_dict_no_mtime env
      ((fs.setFile tmp (some none)).setFile tmp (some (some [])))
      (dictMerge moreinfo bInfo) src
    rw [hsv] at hM2
    have hvk : pyInt (.str sv) = .ok k := by
      simp [pyInt, hk]
    obtain ⟨-, hU3, hM3⟩ := info_dict_with_mtime env
      ((fs.setFile tmp (some none)).setFile tmp (some (some [])))
      (infoDictSrc env ((fs.setFile tmp (some none)).setFile tmp (some (some [])))
        (dictMerge moreinfo bInfo) (some src))
      (.str sv) k src hvk
    exact ⟨_, _, _,
      create_thumbnail_single_eq env fs src moreinfo bInfo tmp sv k hM2 hvk,
      setFile_files_self _ _ _, hU3, hM3⟩


/-- A source file at mtime 5 with no cache contents. -/
def fsC6 : FS where
  files := fun _ => none
  mtimes := fun p => if p = "/c/pic.jpg" then some 5 else none
  sizes := fun _ => none

/-- The published `Thumb::MTime` of the C6 counterexample run. -/
def c6runPub : Option String :=
  match create_thumbnail envW fsC6 "/c/pic.jpg" (.str "large") [] none
      "/c/thumbnails/large/t9.png" [some [(KEY_MTIME, "999")]] with
  | .ok (some dest, fs2) =>
    (match fs2.files dest with
      | some (some pub) => dictGet pub KEY_MTIME
      | _ => none)
  | _ => none

/-- C6 counterexample: a winning backend that returns `Thumb::MTime = "999"`
for a source whose real mtime is 5 gets `"999"` published — the dispatcher
does not restamp a backend-supplied mtime, contradicting the claim that both
mandatory fields are always restamped from the source's identity. -/
theorem c6_counterexample :
    c6runPub = some "999" ∧ fsC6.mtimes "/c/pic.jpg" = some 5 ∧
    some "999" ≠ some (pyStrInt 5) := by
  refine ⟨by decide, rfl, by decide⟩

/-- Witness for C6 at the counterexample's inputs (with the backend mapping
`[(KEY_MTIME, "999")]`, so the second conjunct applies with `sv = "999"`). -/
theorem c6_witness :
    (dictGet (dictMerge [] [(KEY_MTIME, "999")]) KEY_MTIME = none →
      ∃ dest fs2 pub,
        create_thumbnail envW fsC6 "/c/pic.jpg" (.str "large") [] none
            "/c/thumbnails/large/t9.png" [some [(KEY_MTIME, "999")]] =
          .ok (some dest, fs2) ∧
        fs2.files dest = some (some pub) ∧
        dictGet pub KEY_URI = some (any2uri envW "/c/pic.jpg") ∧
        dictGet pub KEY_MTIME = some (pyStrInt 5)) ∧
    (∀ sv k, dictGet (dictMerge [] [(KEY_MTIME, "999")]) KEY_MTIME = some sv →
      pyParseInt sv = some k →
      ∃ dest fs2 pub,
        create_thumbnail envW fsC6 "/c/pic.jpg" (.str "large") [] none
            "/c/thumbnails/large/t9.png" [some [(KEY_MTIME, "999")]] =
          .ok (some dest, fs2) ∧
        fs2.files dest = some (some pub) ∧
        dictGet pub KEY_URI = some (any2uri envW "/c/pic.jpg") ∧
        dictGet pub KEY_MTIME = some (pyStrInt k)) :=
  c6_mandatory_stamping envW fsC6 "/c/pic.jpg" [] [(KEY_MTIME, "999")]
    "/c/thumbnails/large/t9.png" 5 rfl


/-! ### C8 (continued): the round-trip theorem, over every size class -/

/-- A staged temp file holding the externally generated image. -/
def fsC8 : FS where
  files := fun p => if p = "/c/thumbnails/large/tmp4242.png" then some (some []) else none
  mtimes := fun _ => none
  sizes := fun _ => none

/-- C8: for every source, accepted size class and explicit mtime, storing an
externally generated artifact and looking it up with the same size class and
the same explicit mtime returns the stored path; the same lookup with any
other mtime misses. -/
theorem c8_put_then_tryget_roundtrip (env : Env) (fs : FS) (src thumb : String)
    (size : PyVal) (dim : Int) (name : String) (d0 : Dict) (m m2 : Int)
    (hsz : any2size size = .ok (.pair dim name))
    (hmm : m ≠ m2)
    (hthumb : fs.files thumb = some (some d0))
    (hin : strHasPfx (sizeDirPath env name ++ "/") src = false)
    (hne : src ≠ hashedThumbPath env name src) :
    ∃ fs2, put_thumbnail env fs src size thumb (some (.int m)) [] =
        .ok (hashedThumbPath env name src, fs2) ∧
      try_get_thumbnail pilGetInfo env fs2 src (some size) (some (.int m)) =
        .ok (some (hashedThumbPath env name src)) ∧
      try_get_thumbnail pilGetInfo env fs2 src (some size) (some (.int m2)) =
        .ok none := by
  have hput := put_thumbnail_eq_general env fs src thumb size dim name
    (.int m) m [] d0 hsz rfl hthumb
  rw [hin] at hput
  simp only [Bool.false_eq_true, if_false] at hput
  refine ⟨_, hput, ?_, ?_⟩
  all_goals
    have hfl : ((fs.setFile thumb none).setFile (hashedThumbPath env name src)
        (some (some (infoDictSrc env fs (dictSet [] KEY_MTIME (pyStrInt m))
          (some src))))).files (hashedThumbPath env name src) =
        some (some (infoDictSrc env fs (dictSet [] KEY_MTIME (pyStrInt m))
          (some src))) := by
      simp [FS.setFile]
    have hb : build_thumbnail_path env src size =
        .ok (hashedThumbPath env name src) := by
      rw [build_path_eq env src size dim name hsz, hin]
      rfl
    have he : (((fs.setFile thumb none).setFile (hashedThumbPath env name src)
        (some (some (infoDictSrc env fs (dictSet [] KEY_MTIME (pyStrInt m))
          (some src))))).files (hashedThumbPath env name src)).isSome = true := by
      rw [hfl]
      rfl
  · unfold try_get_thumbnail probeSizes
    rw [any2mtime_int]
    simp only [py_bind_ok]
    exact tryGetLoop_cons_valid pilGetInfo env _ src _ m _ [] _ hb hne he
      (putfail_marker_valid env fs _ src m _ hfl)
  · unfold try_get_thumbnail probeSizes
    rw [any2mtime_int]
    simp only [py_bind_ok]
    rw [tryGetLoop_cons_invalid pilGetInfo env _ src _ m2 _ [] _ hb hne he
      (stamped_entry_stale env fs _ src m m2 _ hfl hmm)]
    rfl

/-- Witness for C8: store a thumbnail for a URL in the `x-large` size class at
mtime 42, find it again at 42, miss at 1. -/
theorem c8_witness :
    ∃ fs2, put_thumbnail envW fsC8 "http://e/x" (.str "x-large")
        "/c/thumbnails/large/tmp4242.png" (some (.int 42)) [] =
        .ok (hashedThumbPath envW "x-large" "http://e/x", fs2) ∧
      try_get_thumbnail pilGetInfo envW fs2 "http://e/x" (some (.str "x-large"))
          (some (.int 42)) =
        .ok (some (hashedThumbPath envW "x-large" "http://e/x")) ∧
      try_get_thumbnail pilGetInfo envW fs2 "http://e/x" (some (.str "x-large"))
          (some (.int 1)) =
        .ok none :=
  c8_put_then_tryget_roundtrip envW fsC8 "http://e/x"
    "/c/thumbnails/large/tmp4242.png" (.str "x-large") 512 "x-large" [] 42 1
    rfl (by decide) (by rfl) (by decide) (by decide)


/-! ### C9: failure markers short-circuit generation -/

/-- C9: when the lookup misses and a valid failure marker exists for the
requesting app at the source's current mtime, `get_thumbnail` returns None
with the state untouched, and this holds for every generation function `gen`
— no generation backend is ever invoked; with no app name the failure check
is skipped and the result is exactly the generation call. -/
theorem c9_marker_blocks_generation
    (gen : FS → PyVal → Option String → Py (Option String × FS))
    (getInfo : GetInfo) (env : Env) (fs : FS) (src : String) (size : Option PyVal)
    (app : String) (m : Int)
    (hmiss : try_get_thumbnail getInfo env fs src size none = .ok none)
    (hmt : fs.mtimes src = some m)
    (hfail : is_thumbnail_failed getInfo env fs src app (some (.int m)) = .ok true) :
    getThumbnailWith gen getInfo env fs src size (some app) = .ok (none, fs) ∧
    getThumbnailWith gen getInfo env fs src size none =
      gen fs (size.getD (PyVal.str "large")) none := by
  have hmt2 : any2mtime fs src none = .ok m := by
    unfold any2mtime
    rw [hmt]
  constructor
  · unfold getThumbnailWith
    rw [hmiss]
    simp only [py_bind_ok]
    rw [hmt2]
    simp only [py_bind_ok]
    rw [hfail]
    simp only [py_bind_ok]
    simp
    rfl
  · unfold getThumbnailWith
    rw [hmiss]
    simp only [py_bind_ok, py_pure]
    simp

/-- A missed cache with a valid `foo` failure marker for `/c/pic.jpg`@5. -/
def fsC9 : FS where
  files := fun p =>
    if p = failFilePath envW "/c/pic.jpg" "foo" then
      some (some [(KEY_URI, any2uri envW "/c/pic.jpg"), (KEY_MTIME, "5")])
    else none
  mtimes := fun p => if p = "/c/pic.jpg" then some 5 else none
  sizes := fun _ => none

/-- The trivially failing generator used by the C9 witness. -/
def genNone : FS → PyVal → Option String → Py (Option String × FS) :=
  fun fs1 _ _ => .ok (none, fs1)

/-- Witness for C9 with the trivially failing generator. -/
theorem c9_witness :
    getThumbnailWith genNone pilGetInfo envW fsC9
        "/c/pic.jpg" none (some "foo") = .ok (none, fsC9) ∧
    getThumbnailWith genNone pilGetInfo envW fsC9
        "/c/pic.jpg" none none =
      genNone fsC9 ((none : Option PyVal).getD (PyVal.str "large")) none :=
  c9_marker_blocks_generation genNone pilGetInfo
    envW fsC9 "/c/pic.jpg" none "foo" 5 (by rfl) rfl (by rfl)

end Vignette













